import Mathlib

/-!
A shallow embedding of the appsync-third-party-gateway lambda
(src/gateway-lambda/index.js and src/gateway-lambda/plugins.js): the
credential-to-identity resolution, the delegation argument construction,
the AppSync passthrough error transform, the final error formatting, the
error-tracker plugin hooks, and the cold-start handler caching, together
with theorems checking the specification's claims against them.
-/

namespace Gateway

/-- JavaScript class of an error value, as used by the instanceof checks in
src/gateway-lambda/plugins.js. Plain Error objects and GraphQLError objects
that are none of the Apollo subclasses are all otherError. -/
inductive ErrClass where
  | authenticationError
  | userInputError
  | syntaxError
  | validationError
  | otherError
  deriving DecidableEq, Repr

/-- Extension bag of a GraphQL error. The gateway reads and writes the keys
code and exception specially; every other entry is kept in extra. -/
structure Extensions where
  code : Option String
  exception : Option String
  extra : List (String × String)
  deriving DecidableEq, Repr

/-- A GraphQL error value as it flows through the gateway: message, the JS
class (for instanceof checks), the extensions bag, a stack-trace field, and
the path and locations of the standard GraphQL error shape. -/
structure GatewayError where
  message : String
  cls : ErrClass
  extensions : Option Extensions
  stack : Option String
  path : Option (List String)
  locations : Option (List (Nat × Nat))
  deriving DecidableEq, Repr

/-- An error object parsed from the backend's JSON response body (the value
produced by fetchResult.json() in appSyncRemoteExecutor,
src/gateway-lambda/index.js lines 36-43): the standard GraphQL response
error shape. A JSON-parsed error carries message, locations, path and
extensions, and never the AST fields nodes, source and positions, which
exist only on server-side GraphQLError objects. -/
structure BackendJsonError where
  message : String
  locations : Option (List (Nat × Nat))
  path : Option (List String)
  extensions : Option Extensions
  deriving DecidableEq, Repr

/-- The raw result returned by the backend executor: a data part and an
optional error list, as in the GraphQL response shape. -/
structure RawResult where
  hasData : Bool
  errors : Option (List BackendJsonError)
  deriving DecidableEq, Repr

/-- A backend result after the passthrough transform retagged its errors. -/
structure TransformedResult where
  hasData : Bool
  errors : Option (List GatewayError)
  deriving DecidableEq, Repr

/-- The JavaScript object spread followed by an explicit code property, as
written in appSyncPassThroughErrorTransform
(src/gateway-lambda/index.js line 66): spread of an undefined extensions
value gives the bag holding only the marker, and spread of a present bag
keeps every entry while overwriting code with the marker. -/
def spreadWithMarker (ext : Option Extensions) : Extensions :=
  match ext with
  | none => { code := some "APPSYNC_PASSTHROUGH_ERROR", exception := none, extra := [] }
  | some x => { x with code := some "APPSYNC_PASSTHROUGH_ERROR" }

/-- One error rebuilt by appSyncPassThroughErrorTransform
(src/gateway-lambda/index.js lines 55-72): new GraphQLError of
error.message, error.nodes, error.source, error.positions, error.path,
error.originalError, and the spread extensions with the marker code. On a
JSON-parsed backend error the nodes, source and positions arguments are all
undefined, so the GraphQLError constructor derives no locations for the
rebuilt error; the message and path arguments are passed through, the
fresh Error object carries its own stack, and the class is the plain
GraphQLError, none of the Apollo subclasses. -/
def retagError (e : BackendJsonError) : GatewayError :=
  { message := e.message
  , cls := ErrClass.otherError
  , extensions := some (spreadWithMarker e.extensions)
  , stack := some "graphql-error-stack"
  , path := e.path
  , locations := none }

/-- The transformResult arrow of appSyncPassThroughErrorTransform
(src/gateway-lambda/index.js lines 56-71): when the result carries an
errors list, every error in it is rebuilt with the marker code; the data
part passes through unmodified. -/
def transformResult (r : RawResult) : TransformedResult :=
  match r.errors with
  | none => { hasData := r.hasData, errors := none }
  | some es => { hasData := r.hasData, errors := some (es.map retagError) }

/-- The optional-chained read err.extensions?.code used in both
src/gateway-lambda/index.js and src/gateway-lambda/plugins.js. -/
def extensionsCode (e : GatewayError) : Option String :=
  match e.extensions with
  | some x => x.code
  | none => none

/-- The formatError function (src/gateway-lambda/index.js lines 146-177):
delete err.stack and err.extensions?.exception unconditionally; when the
code is the AppSync passthrough marker, delete the whole extensions object;
when the code is INTERNAL_SERVER_ERROR, overwrite the message with the
fixed generic string and delete the extensions. -/
def formatError (e : GatewayError) : GatewayError :=
  let e1 : GatewayError :=
    { e with stack := none,
             extensions := e.extensions.map (fun x => { x with exception := none }) }
  let e2 : GatewayError :=
    if extensionsCode e1 = some "APPSYNC_PASSTHROUGH_ERROR" then
      { e1 with extensions := none }
    else e1
  if extensionsCode e2 = some "INTERNAL_SERVER_ERROR" then
    { e2 with message := "Internal Server Error", extensions := none }
  else e2

/-- The first skip condition of didEncounterErrors
(src/gateway-lambda/plugins.js lines 111-115): the error carries the
AppSync passthrough marker code. -/
def isBackendTagged (e : GatewayError) : Bool :=
  decide (extensionsCode e = some "APPSYNC_PASSTHROUGH_ERROR")

/-- The second skip condition of didEncounterErrors
(src/gateway-lambda/plugins.js lines 117-121): err instanceof
UserInputError or err instanceof SyntaxError. -/
def isCallerInputInstance (e : GatewayError) : Bool :=
  decide (e.cls = ErrClass.userInputError) || decide (e.cls = ErrClass.syntaxError)

/-- Fault-sink captures made by didEncounterErrors
(src/gateway-lambda/plugins.js lines 94-128): when any of the three stage
flags is set the hook returns at once with no captures; otherwise it
captures every error that is neither backend-tagged nor one of the two
caller-input classes. -/
def didEncounterErrorsCaptures (parseFailed validationFailed unknownOpName : Bool)
    (errors : List GatewayError) : List GatewayError :=
  if parseFailed || validationFailed || unknownOpName then []
  else errors.filter (fun e => !(isBackendTagged e) && !(isCallerInputInstance e))

/-- The didResolveOperation hook body (src/gateway-lambda/plugins.js lines
88-92): the unknown-operation-name flag is set exactly when the
requestContext.operationName value delivered by the framework is undefined.
The outer Option models JS definedness (none is undefined) and the inner
Option models JS nullability (none is the null assigned to an anonymous
operation). -/
def didResolveOperationFlag (operationName : Option (Option String)) : Bool :=
  operationName.isNone

/-- Modelled from the spec: the requestContext.operationName value that the
Apollo request pipeline (framework code, not under src/) hands to
didResolveOperation. Per the spec the unknown-operation condition, the
undefined value, occurs exactly when the caller did not name an operation
and the document contains more than one operation; a named request carries
its operation name, and an anonymous request over a single-operation
document carries the null assigned to anonymous operations. -/
def hookOperationName (callerOpName : Option String) (docOpCount : Nat) :
    Option (Option String) :=
  match callerOpName with
  | some n => some (some n)
  | none => if 1 < docOpCount then none else some none

/-- JavaScript String.prototype.trim as called on the api key at
src/gateway-lambda/index.js line 128, modelled executably: drop leading and
trailing whitespace characters. -/
def jsTrim (s : String) : String :=
  String.mk (((s.data.dropWhile Char.isWhitespace).reverse.dropWhile Char.isWhitespace).reverse)

/-- A row of the API-users table: the stored record for one api key. The
affinity attribute may be absent entirely (none) or stored as a string. -/
structure ApiKeyRecord where
  affinity : Option String
  deriving DecidableEq, Repr

/-- A credential-store lookup: ok none when no item exists for the key, ok
of a record when one does, and error when the DynamoDB call itself fails
(the promise rejects). -/
def CredStore : Type := String → Except String (Option ApiKeyRecord)

/-- getAffinityFromApiKey (src/gateway-lambda/index.js lines 22-33): read
the item for the key and return apiKeyRecord.Item?.affinity || null, that
is the affinity when it is a truthy (nonempty) string and null otherwise; a
rejected DynamoDB call propagates as a thrown error. -/
def getAffinityFromApiKey (store : CredStore) (apiKey : String) :
    Except String (Option String) :=
  match store apiKey with
  | Except.error e => Except.error e
  | Except.ok none => Except.ok none
  | Except.ok (some r) =>
      match r.affinity with
      | none => Except.ok none
      | some a => Except.ok (if a = "" then none else some a)

/-- An AuthenticationError from apollo-server-lambda, as thrown by the
context function: it carries the UNAUTHENTICATED code and a stack trace. -/
def authenticationError (msg : String) : GatewayError :=
  { message := msg
  , cls := ErrClass.authenticationError
  , extensions := some { code := some "UNAUTHENTICATED", exception := some "stacktrace", extra := [] }
  , stack := some "stack"
  , path := none
  , locations := none }

/-- The plain error thrown by the aws-sdk when the credential-store lookup
fails: a generic class, no Apollo extensions, a stack trace. -/
def lookupFailureError (msg : String) : GatewayError :=
  { message := msg
  , cls := ErrClass.otherError
  , extensions := none
  , stack := some "stack"
  , path := none
  , locations := none }

/-- The Apollo context value built once per request
(src/gateway-lambda/index.js lines 115-145): either an affinity or a
captured context error, matching the two return values of the context
function. -/
structure RequestContext where
  affinity : Option String
  contextError : Option GatewayError
  deriving DecidableEq, Repr

/-- The context function (src/gateway-lambda/index.js lines 115-145): a
missing header and an empty header are both falsy for the if check, so both
throw AuthenticationError Missing authorization header; otherwise the key
is trimmed and looked up, a falsy affinity throws AuthenticationError
Invalid authorization header, and every thrown value, a lookup failure
included, is caught and returned in the contextError field instead of
propagating to the framework. -/
def buildContext (store : CredStore) (authHeader : Option String) : RequestContext :=
  match authHeader with
  | none =>
      { affinity := none
      , contextError := some (authenticationError "Missing authorization header") }
  | some k =>
      if k = "" then
        { affinity := none
        , contextError := some (authenticationError "Missing authorization header") }
      else
        match getAffinityFromApiKey store (jsTrim k) with
        | Except.error e =>
            { affinity := none, contextError := some (lookupFailureError e) }
        | Except.ok none =>
            { affinity := none
            , contextError := some (authenticationError "Invalid authorization header") }
        | Except.ok (some a) =>
            { affinity := some a, contextError := none }

/-- The fresh new Error with message Internal Server Error thrown by
requestDidStart for a non-authentication context error
(src/gateway-lambda/plugins.js line 50). As the code comment at
src/gateway-lambda/index.js lines 164-170 records, a thrown value that is
none of the Apollo subclasses receives the INTERNAL_SERVER_ERROR code. -/
def internalServerErrorValue : GatewayError :=
  { message := "Internal Server Error"
  , cls := ErrClass.otherError
  , extensions := some { code := some "INTERNAL_SERVER_ERROR", exception := some "stacktrace", extra := [] }
  , stack := some "stack"
  , path := none
  , locations := none }

/-- Outcome of errorTracker.requestDidStart with respect to the context
error: either the request proceeds, or the hook throws and the request is
aborted carrying the thrown error. -/
inductive StartOutcome where
  | proceed
  | aborted (e : GatewayError)
  deriving DecidableEq, Repr

/-- What the requestDidStart context-error branch did: how the request
continues, which exceptions it captured to the fault sink, and whether it
flushed the sink. -/
structure StartResult where
  outcome : StartOutcome
  sinkCaptures : List GatewayError
  flushed : Bool
  deriving DecidableEq, Repr

/-- The context-error branch of errorTracker.requestDidStart
(src/gateway-lambda/plugins.js lines 38-51): with no context error the
request proceeds; an AuthenticationError context error is rethrown with no
sink capture; any other context error is captured to the sink, the sink is
flushed, and a fresh generic Error with message Internal Server Error is
thrown in its place. -/
def requestDidStartHandle (contextError : Option GatewayError) : StartResult :=
  match contextError with
  | none => { outcome := StartOutcome.proceed, sinkCaptures := [], flushed := false }
  | some e =>
      if e.cls = ErrClass.authenticationError then
        { outcome := StartOutcome.aborted e, sinkCaptures := [], flushed := false }
      else
        { outcome := StartOutcome.aborted internalServerErrorValue
        , sinkCaptures := [e], flushed := true }

/-- JavaScript object spread followed by one explicit property, as in the
resolver argument construction: when the key is already bound it is
overwritten in place, otherwise the pair is appended. -/
def jsObjectSet (m : List (String × String)) (k v : String) : List (String × String) :=
  if m.any (fun p => decide (p.1 = k)) then
    m.map (fun p => if p.1 = k then (k, v) else p)
  else m ++ [(k, v)]

/-- Argument construction of the sayHello resolver
(src/gateway-lambda/index.js lines 85-95): the delegated call carries the
spread of the caller arguments with affinity set to context.affinity;
nothing else from the request, in particular not the authorization header,
enters the delegated arguments. -/
def sayHelloDelegatedArgs (args : List (String × String)) (affinity : String) :
    List (String × String) :=
  jsObjectSet args "affinity" affinity

/-- Modelled from the spec and the code comment at
src/gateway-lambda/index.js lines 164-170: the framework wraps an uncaught
local exception thrown during resolution into a GraphQL error carrying the
INTERNAL_SERVER_ERROR code and the exception details under
extensions.exception; it is none of the Apollo subclasses. -/
def wrapLocalException (msg : String) : GatewayError :=
  { message := msg
  , cls := ErrClass.otherError
  , extensions := some { code := some "INTERNAL_SERVER_ERROR", exception := some "stacktrace", extra := [] }
  , stack := some "stack"
  , path := some ["sayHello"]
  , locations := none }

/-- Modelled from the spec: the syntax error produced when parsing fails,
an apollo-server SyntaxError carrying the GRAPHQL_PARSE_FAILED code. -/
def syntaxFailureError (msg : String) : GatewayError :=
  { message := msg
  , cls := ErrClass.syntaxError
  , extensions := some { code := some "GRAPHQL_PARSE_FAILED", exception := some "stacktrace", extra := [] }
  , stack := some "stack"
  , path := none
  , locations := none }

/-- Modelled from the spec: one error produced when validation fails, an
apollo-server ValidationError carrying the GRAPHQL_VALIDATION_FAILED
code. -/
def validationFailureError (msg : String) : GatewayError :=
  { message := msg
  , cls := ErrClass.validationError
  , extensions := some { code := some "GRAPHQL_VALIDATION_FAILED", exception := some "stacktrace", extra := [] }
  , stack := some "stack"
  , path := none
  , locations := none }

/-- Modelled from the spec: the error produced when the operation to run
cannot be determined from an anonymous multi-operation document. -/
def unknownOperationError : GatewayError :=
  { message := "Must provide operation name if query contains multiple operations."
  , cls := ErrClass.otherError
  , extensions := some { code := some "INTERNAL_SERVER_ERROR", exception := some "stacktrace", extra := [] }
  , stack := some "stack"
  , path := none
  , locations := none }

/-- What happens in the execution stage once resolvers run: the resolver
delegates and the backend answers with a raw result, or an uncaught local
exception is thrown during resolution. -/
inductive ExecutionBehavior where
  | backend (r : RawResult)
  | throwLocal (msg : String)
  deriving DecidableEq, Repr

/-- Observable outcome of one request: the formatted client-visible errors,
the exceptions captured to the fault-tracking sink, how many resolvers ran,
and the three stage flags of the error-tracker plugin. -/
structure RequestOutcome where
  clientErrors : List GatewayError
  sinkCaptures : List GatewayError
  resolversExecuted : Nat
  parseFailed : Bool
  validationFailed : Bool
  unknownOperationName : Bool
  deriving DecidableEq, Repr

/-- Modelled from the spec: the sequential request lifecycle driven by the
framework (context building, then parsing, validating, operation
resolution, execution, and formatting, any stage failure short-circuiting
to formatting), composed with the functions embedded from src/:
buildContext, the requestDidStart context-error branch, the three stage
flags, the didEncounterErrors sink captures, the passthrough transform on
backend results, and formatError applied to every returned error. -/
def runRequest (store : CredStore) (authHeader : Option String)
    (parseErrorMsg : Option String) (validationErrorMsgs : List String)
    (callerOpName : Option String) (docOpCount : Nat)
    (exec : ExecutionBehavior) : RequestOutcome :=
  let ctx := buildContext store authHeader
  let start := requestDidStartHandle ctx.contextError
  match start.outcome with
  | StartOutcome.aborted e =>
      { clientErrors := [formatError e], sinkCaptures := start.sinkCaptures
      , resolversExecuted := 0, parseFailed := false, validationFailed := false
      , unknownOperationName := false }
  | StartOutcome.proceed =>
      match parseErrorMsg with
      | some m =>
          let errs := [syntaxFailureError m]
          { clientErrors := errs.map formatError
          , sinkCaptures := didEncounterErrorsCaptures true false false errs
          , resolversExecuted := 0, parseFailed := true, validationFailed := false
          , unknownOperationName := false }
      | none =>
          match validationErrorMsgs with
          | m :: ms =>
              let errs := (m :: ms).map validationFailureError
              { clientErrors := errs.map formatError
              , sinkCaptures := didEncounterErrorsCaptures false true false errs
              , resolversExecuted := 0, parseFailed := false, validationFailed := true
              , unknownOperationName := false }
          | [] =>
              if didResolveOperationFlag (hookOperationName callerOpName docOpCount) then
                let errs := [unknownOperationError]
                { clientErrors := errs.map formatError
                , sinkCaptures := didEncounterErrorsCaptures false false true errs
                , resolversExecuted := 0, parseFailed := false, validationFailed := false
                , unknownOperationName := true }
              else
                match exec with
                | ExecutionBehavior.backend r =>
                    let errs := ((transformResult r).errors).getD []
                    { clientErrors := errs.map formatError
                    , sinkCaptures := didEncounterErrorsCaptures false false false errs
                    , resolversExecuted := 1, parseFailed := false, validationFailed := false
                    , unknownOperationName := false }
                | ExecutionBehavior.throwLocal m =>
                    let errs := [wrapLocalException m]
                    { clientErrors := errs.map formatError
                    , sinkCaptures := didEncounterErrorsCaptures false false false errs
                    , resolversExecuted := 1, parseFailed := false, validationFailed := false
                    , unknownOperationName := false }

/-- Process-level state of the lambda module
(src/gateway-lambda/index.js lines 186-195): whether the apolloHandler
module variable has been assigned, and how many times createApolloServer,
and with it introspectSchema, the backend schema discovery, has run. -/
structure ProcState where
  handlerCached : Bool
  discoveryCount : Nat
  deriving DecidableEq, Repr

/-- The module state at process start: no cached handler, no discovery. -/
def initialProcState : ProcState := { handlerCached := false, discoveryCount := 0 }

/-- One full handler invocation running to completion without interleaving
(src/gateway-lambda/index.js lines 188-195): when apolloHandler is unset,
createApolloServer runs, performing discovery, and the handler is cached;
otherwise the cached handler is reused unchanged. -/
def handlerInvocation (s : ProcState) : ProcState :=
  if s.handlerCached then s
  else { handlerCached := true, discoveryCount := s.discoveryCount + 1 }

/-- A number of handler invocations processed one at a time, each running
to completion before the next begins. -/
def runSequential (s : ProcState) : Nat → ProcState
  | 0 => s
  | Nat.succ n => runSequential (handlerInvocation s) n

/-- Where an in-flight handler invocation stands: before the cache check,
suspended at the await on createApolloServer inside the cold-start branch,
or finished. -/
inductive ReqPhase where
  | ready
  | awaitingInit
  | finished
  deriving DecidableEq, Repr

/-- One event-loop step of one handler invocation: the cache check runs
atomically up to the await on createApolloServer (counting the discovery
that call starts), and the assignment to apolloHandler happens only when
the await resumes. -/
def stepHandler (s : ProcState) (p : ReqPhase) : ProcState × ReqPhase :=
  match p with
  | ReqPhase.ready =>
      if s.handlerCached then (s, ReqPhase.finished)
      else ({ s with discoveryCount := s.discoveryCount + 1 }, ReqPhase.awaitingInit)
  | ReqPhase.awaitingInit => ({ s with handlerCached := true }, ReqPhase.finished)
  | ReqPhase.finished => (s, ReqPhase.finished)

/-- Run an interleaving of in-flight handler invocations: the schedule
names, step by step, which invocation advances next. -/
def runSchedule : ProcState → List ReqPhase → List Nat → ProcState × List ReqPhase
  | s, ps, [] => (s, ps)
  | s, ps, i :: rest =>
      match ps[i]? with
      | none => runSchedule s ps rest
      | some p =>
          let sp := stepHandler s p
          runSchedule sp.1 (ps.set i sp.2) rest

/-- The concrete backend error used against claim C1: a structured backend
error with locations, a path and a non-marker extension entry. -/
def c1BackendError : BackendJsonError :=
  { message := "backend failed"
  , locations := some [(2, 3)]
  , path := some ["sayHello"]
  , extensions := some { code := none, exception := none, extra := [("errorType", "Unauthorized")] } }

/-- A store holding one valid credential for the C1 scenario. -/
def c1Store : CredStore :=
  fun k => if k = "K" then Except.ok (some { affinity := some "dev-42" }) else Except.ok none

/-- A store holding one valid credential for the C2 witness. -/
def c2Store : CredStore :=
  fun k => if k = "K" then Except.ok (some { affinity := some "dev-42" }) else Except.ok none

/-- An empty store for the C4 counterexample and witness. -/
def c4Store : CredStore := fun _ => Except.ok none

/-- A store holding one valid credential for the C6 witness. -/
def c6Store : CredStore :=
  fun k => if k = "K" then Except.ok (some { affinity := some "dev-42" }) else Except.ok none

/-- A store whose lookup always fails, for the C7 scenario. -/
def c7Store : CredStore := fun _ => Except.error "connect timeout"

/-- A store holding a record whose affinity attribute is the empty string,
for the C10 witness. -/
def c10Store : CredStore :=
  fun k => if k = "K" then Except.ok (some { affinity := some "" }) else Except.ok none

/-- An empty store for the C10 witness comparison. -/
def c10EmptyStore : CredStore := fun _ => Except.ok none

/-- The authentication-class and caller-input-class faults of the spec's
taxonomy: the Apollo error classes whose details are safe to disclose. -/
def disclosableClass (c : ErrClass) : Bool :=
  match c with
  | ErrClass.authenticationError => true
  | ErrClass.userInputError => true
  | ErrClass.syntaxError => true
  | ErrClass.validationError => true
  | ErrClass.otherError => false

/-- Modelled from the spec and the Apollo error-codes documentation cited
by the comment at src/gateway-lambda/index.js lines 164-170: the extensions
code each Apollo error class carries. -/
def apolloErrorCode (c : ErrClass) : String :=
  match c with
  | ErrClass.authenticationError => "UNAUTHENTICATED"
  | ErrClass.userInputError => "BAD_USER_INPUT"
  | ErrClass.syntaxError => "GRAPHQL_PARSE_FAILED"
  | ErrClass.validationError => "GRAPHQL_VALIDATION_FAILED"
  | ErrClass.otherError => "INTERNAL_SERVER_ERROR"

/-- Formatting an AuthenticationError strips the stack and the internal
exception field and keeps the message and the remaining extensions. -/
theorem formatError_authenticationError (m : String) :
    formatError (authenticationError m)
      = { message := m, cls := ErrClass.authenticationError
        , extensions := some { code := some "UNAUTHENTICATED", exception := none, extra := [] }
        , stack := none, path := none, locations := none } := rfl

/-- Formatting the wrapped local exception masks the message and removes
all extensions and the stack. -/
theorem formatError_wrapLocalException (m : String) :
    formatError (wrapLocalException m)
      = { message := "Internal Server Error", cls := ErrClass.otherError
        , extensions := none, stack := none, path := some ["sayHello"], locations := none } := rfl

/-- Formatting the generic thrown error keeps the generic message and
removes the extensions. -/
theorem formatError_internalServerErrorValue :
    formatError internalServerErrorValue
      = { message := "Internal Server Error", cls := ErrClass.otherError
        , extensions := none, stack := none, path := none, locations := none } := rfl

/-- Formatting a parse failure keeps its message and its parse-failed code. -/
theorem formatError_syntaxFailureError (m : String) :
    formatError (syntaxFailureError m)
      = { message := m, cls := ErrClass.syntaxError
        , extensions := some { code := some "GRAPHQL_PARSE_FAILED", exception := none, extra := [] }
        , stack := none, path := none, locations := none } := rfl

/-- Context construction for a valid credential stores the affinity and no
context error. -/
theorem buildContext_valid (store : CredStore) (k a : String)
    (hk : k ≠ "") (ha : store (jsTrim k) = Except.ok (some { affinity := some a }))
    (haff : a ≠ "") :
    buildContext store (some k) = { affinity := some a, contextError := none } := by
  simp [buildContext, hk, getAffinityFromApiKey, ha, haff]

/-- Context construction for a nonempty credential absent from the store
captures the invalid-header AuthenticationError. -/
theorem buildContext_invalid (store : CredStore) (k : String)
    (hk : k ≠ "") (hmiss : store (jsTrim k) = Except.ok none) :
    buildContext store (some k)
      = { affinity := none
        , contextError := some (authenticationError "Invalid authorization header") } := by
  simp [buildContext, hk, getAffinityFromApiKey, hmiss]

/-- Context construction when the store lookup throws captures the thrown
lookup failure. -/
theorem buildContext_lookup_error (store : CredStore) (k em : String)
    (hk : k ≠ "") (herr : store (jsTrim k) = Except.error em) :
    buildContext store (some k)
      = { affinity := none, contextError := some (lookupFailureError em) } := by
  simp [buildContext, hk, getAffinityFromApiKey, herr]

/-- A request with no authorization header aborts with the missing-header
AuthenticationError, no sink capture and no resolver run. -/
theorem runRequest_missing_header (store : CredStore) (pe : Option String)
    (ve : List String) (con : Option String) (dc : Nat) (ex : ExecutionBehavior) :
    runRequest store none pe ve con dc ex
      = { clientErrors := [formatError (authenticationError "Missing authorization header")]
        , sinkCaptures := [], resolversExecuted := 0, parseFailed := false
        , validationFailed := false, unknownOperationName := false } := rfl

/-- A request with a nonempty credential absent from the store aborts with
the invalid-header AuthenticationError, no sink capture and no resolver
run. -/
theorem runRequest_invalid_header (store : CredStore) (k : String)
    (pe : Option String) (ve : List String) (con : Option String) (dc : Nat)
    (ex : ExecutionBehavior)
    (hk : k ≠ "") (hmiss : store (jsTrim k) = Except.ok none) :
    runRequest store (some k) pe ve con dc ex
      = { clientErrors := [formatError (authenticationError "Invalid authorization header")]
        , sinkCaptures := [], resolversExecuted := 0, parseFailed := false
        , validationFailed := false, unknownOperationName := false } := by
  have hctx := buildContext_invalid store k hk hmiss
  simp only [runRequest, hctx]
  rfl

/-- A request whose store lookup throws aborts with the generic error in
place of the caller-visible fault and captures the lookup failure to the
sink. -/
theorem runRequest_lookup_error (store : CredStore) (k em : String)
    (pe : Option String) (ve : List String) (con : Option String) (dc : Nat)
    (ex : ExecutionBehavior)
    (hk : k ≠ "") (herr : store (jsTrim k) = Except.error em) :
    runRequest store (some k) pe ve con dc ex
      = { clientErrors := [formatError internalServerErrorValue]
        , sinkCaptures := [lookupFailureError em], resolversExecuted := 0
        , parseFailed := false, validationFailed := false
        , unknownOperationName := false } := by
  have hctx := buildContext_lookup_error store k em hk herr
  simp only [runRequest, hctx]
  rfl

/-- A request under a valid credential whose parse stage fails returns the
syntax error, sets the parse flag, captures nothing and runs no resolver. -/
theorem runRequest_parse_failure (store : CredStore) (k a pm : String)
    (ve : List String) (con : Option String) (dc : Nat) (ex : ExecutionBehavior)
    (hk : k ≠ "") (ha : store (jsTrim k) = Except.ok (some { affinity := some a }))
    (haff : a ≠ "") :
    runRequest store (some k) (some pm) ve con dc ex
      = { clientErrors := [formatError (syntaxFailureError pm)]
        , sinkCaptures := [], resolversExecuted := 0, parseFailed := true
        , validationFailed := false, unknownOperationName := false } := by
  have hctx := buildContext_valid store k a hk ha haff
  simp only [runRequest, hctx]
  rfl

/-- A request under a valid credential whose resolution throws a local
exception returns the formatted wrapped exception, captures it once and
runs one resolver. -/
theorem runRequest_throw_local (store : CredStore) (k a opName m : String)
    (dc : Nat)
    (hk : k ≠ "") (ha : store (jsTrim k) = Except.ok (some { affinity := some a }))
    (haff : a ≠ "") :
    runRequest store (some k) none [] (some opName) dc (ExecutionBehavior.throwLocal m)
      = { clientErrors := [formatError (wrapLocalException m)]
        , sinkCaptures := [wrapLocalException m], resolversExecuted := 1
        , parseFailed := false, validationFailed := false
        , unknownOperationName := false } := by
  have hctx := buildContext_valid store k a hk ha haff
  simp only [runRequest, hctx]
  rfl

/-- A process whose handler is already cached stays unchanged under any
further sequence of sequential invocations. -/
theorem runSequential_cached (c : Nat) :
    ∀ n, runSequential { handlerCached := true, discoveryCount := c } n
      = { handlerCached := true, discoveryCount := c }
  | 0 => rfl
  | Nat.succ n => by
      have h := runSequential_cached c n
      simpa [runSequential, handlerInvocation] using h

/-- Claim C1 (code bug): at a concrete backend error carrying locations and
an errorType extension entry, the client-visible error keeps the message
and path, is never masked with the generic message, and is never captured
to the fault sink; but the whole extensions bag and the locations are
dropped by the code, where the claim promises the original extensions minus
the marker and the original locations intact. -/
theorem c1_backend_error_passthrough_drops_extensions_and_locations :
    (formatError (retagError c1BackendError)).message = "backend failed" ∧
    (formatError (retagError c1BackendError)).path = some ["sayHello"] ∧
    ¬ (formatError (retagError c1BackendError)).message = "Internal Server Error" ∧
    (runRequest c1Store (some "K") none [] (some "Q") 1
        (ExecutionBehavior.backend { hasData := true, errors := some [c1BackendError] })).clientErrors
      = [formatError (retagError c1BackendError)] ∧
    (runRequest c1Store (some "K") none [] (some "Q") 1
        (ExecutionBehavior.backend { hasData := true, errors := some [c1BackendError] })).sinkCaptures
      = [] ∧
    (formatError (retagError c1BackendError)).extensions = none ∧
    (formatError (retagError c1BackendError)).locations = none ∧
    c1BackendError.extensions
      = some { code := none, exception := none, extra := [("errorType", "Unauthorized")] } ∧
    c1BackendError.locations = some [(2, 3)] := by
  refine ⟨rfl, rfl, by decide, rfl, rfl, rfl, rfl, rfl, rfl⟩

/-- Claim C3: when the caller-supplied arguments do not bind the affinity
key, the delegated arguments are exactly the caller arguments with the
identity pair appended under the affinity key, and every delegated binding
is either a caller binding or that identity pair, so the credential itself
never enters the delegated arguments. -/
theorem c3_identity_injected_as_extra_argument (args : List (String × String)) (aff : String)
    (h : ∀ p ∈ args, p.1 ≠ "affinity") :
    sayHelloDelegatedArgs args aff = args ++ [("affinity", aff)] ∧
    ∀ p ∈ sayHelloDelegatedArgs args aff, p ∈ args ∨ p = ("affinity", aff) := by
  have hany : args.any (fun p => decide (p.1 = "affinity")) = false := by
    simp only [List.any_eq_false, decide_eq_true_eq]
    exact h
  have heq : sayHelloDelegatedArgs args aff = args ++ [("affinity", aff)] := by
    simp [sayHelloDelegatedArgs, jsObjectSet, hany]
  refine ⟨heq, ?_⟩
  intro p hp
  rw [heq] at hp
  rcases List.mem_append.mp hp with h1 | h2
  · exact Or.inl h1
  · exact Or.inr (List.mem_singleton.mp h2)

/-- Witness for C3 at the concrete example of the spec: the identity
dev-42 is appended to the caller argument name x. -/
theorem c3_witness :
    sayHelloDelegatedArgs [("name", "x")] "dev-42"
      = [("name", "x")] ++ [("affinity", "dev-42")] ∧
    ∀ p ∈ sayHelloDelegatedArgs [("name", "x")] "dev-42",
      p ∈ [("name", "x")] ∨ p = ("affinity", "dev-42") :=
  c3_identity_injected_as_extra_argument [("name", "x")] "dev-42" (by decide)

/-- Claim C5: the unknown-operation-name flag is set exactly when the
caller did not name an operation and the document contains more than one
operation, and it stays false for an anonymous single-operation request. -/
theorem c5_unknown_operation_name_flag (callerOpName : Option String) (docOpCount : Nat) :
    (didResolveOperationFlag (hookOperationName callerOpName docOpCount) = true
      ↔ callerOpName = none ∧ 1 < docOpCount) ∧
    didResolveOperationFlag (hookOperationName none 1) = false := by
  refine ⟨?_, by decide⟩
  cases callerOpName with
  | some n => simp [hookOperationName, didResolveOperationFlag]
  | none =>
      by_cases hdc : 1 < docOpCount <;>
        simp [hookOperationName, didResolveOperationFlag, hdc]

/-- Witness for C5: an anonymous request over a two-operation document sets
the flag, and an anonymous request over a single-operation document does
not. -/
theorem c5_witness :
    (didResolveOperationFlag (hookOperationName none 2) = true
      ↔ (none : Option String) = none ∧ 1 < 2) ∧
    didResolveOperationFlag (hookOperationName none 1) = false :=
  c5_unknown_operation_name_flag none 2

/-- Counterexample to claim C9: two handler invocations interleaved at the
await inside the cold-start branch each start createApolloServer, so the
schema discovery runs twice in one process, not at most once. -/
theorem c9_counterexample :
    (runSchedule initialProcState [ReqPhase.ready, ReqPhase.ready] [0, 1, 0, 1]).1.discoveryCount
      = 2 ∧
    ¬ (runSchedule initialProcState
        [ReqPhase.ready, ReqPhase.ready] [0, 1, 0, 1]).1.discoveryCount ≤ 1 := by
  refine ⟨rfl, by decide⟩

/-- Claim C9 as amended: when handler invocations run to completion one at
a time, discovery runs at most once per process across any number of
requests, and an invocation finding the cached handler reuses it without
change, in particular without another discovery. -/
theorem c9_sequential_discovery_at_most_once (n : Nat) (s : ProcState)
    (hs : s.handlerCached = true) :
    (runSequential initialProcState n).discoveryCount ≤ 1 ∧
    handlerInvocation s = s := by
  constructor
  · cases n with
    | zero => decide
    | succ m =>
        have h1 : handlerInvocation initialProcState
            = { handlerCached := true, discoveryCount := 1 } := rfl
        have h2 : runSequential initialProcState (Nat.succ m)
            = runSequential (handlerInvocation initialProcState) m := rfl
        rw [h2, h1, runSequential_cached 1 m]
  · simp [handlerInvocation, hs]

/-- Witness for C9 as amended: three sequential invocations perform at most
one discovery, and a cached process state is a fixed point of a handler
invocation. -/
theorem c9_witness :
    (runSequential initialProcState 3).discoveryCount ≤ 1 ∧
    handlerInvocation { handlerCached := true, discoveryCount := 1 }
      = { handlerCached := true, discoveryCount := 1 } :=
  c9_sequential_discovery_at_most_once 3 { handlerCached := true, discoveryCount := 1 } rfl

/-- Claim C2: an uncaught local exception thrown during resolution under a
valid credential reaches the caller as exactly one error whose message is
exactly the fixed generic string with no extensions and no stack, while the
wrapped original exception, which keeps the original message, is captured
to the fault-tracking sink exactly once. -/
theorem c2_uncaught_local_exception_masked_and_reported_once
    (store : CredStore) (k a opName m : String) (dc : Nat)
    (hk : k ≠ "") (ha : store (jsTrim k) = Except.ok (some { affinity := some a }))
    (haff : a ≠ "") :
    (runRequest store (some k) none [] (some opName) dc
        (ExecutionBehavior.throwLocal m)).clientErrors
      = [{ message := "Internal Server Error", cls := ErrClass.otherError
         , extensions := none, stack := none, path := some ["sayHello"], locations := none }] ∧
    (runRequest store (some k) none [] (some opName) dc
        (ExecutionBehavior.throwLocal m)).sinkCaptures = [wrapLocalException m] ∧
    (wrapLocalException m).message = m ∧
    (runRequest store (some k) none [] (some opName) dc
        (ExecutionBehavior.throwLocal m)).resolversExecuted = 1 := by
  rw [runRequest_throw_local store k a opName m dc hk ha haff]
  refine ⟨?_, rfl, rfl, rfl⟩
  rw [formatError_wrapLocalException m]

/-- Witness for C2 at a concrete store and request. -/
theorem c2_witness :
    (runRequest c2Store (some "K") none [] (some "Q") 1
        (ExecutionBehavior.throwLocal "boom")).clientErrors
      = [{ message := "Internal Server Error", cls := ErrClass.otherError
         , extensions := none, stack := none, path := some ["sayHello"], locations := none }] ∧
    (runRequest c2Store (some "K") none [] (some "Q") 1
        (ExecutionBehavior.throwLocal "boom")).sinkCaptures = [wrapLocalException "boom"] := by
  have h := c2_uncaught_local_exception_masked_and_reported_once c2Store "K" "dev-42" "Q"
      "boom" 1 (by decide) rfl (by decide)
  exact ⟨h.1, h.2.1⟩

/-- Counterexample to claim C4: the messages produced by the code are the
capitalized Missing authorization header and Invalid authorization header,
not the lowercase strings the claim states. -/
theorem c4_counterexample :
    (runRequest c4Store none none [] none 1
        (ExecutionBehavior.throwLocal "x")).clientErrors.map GatewayError.message
      = ["Missing authorization header"] ∧
    ¬ (runRequest c4Store none none [] none 1
        (ExecutionBehavior.throwLocal "x")).clientErrors.map GatewayError.message
      = ["missing authorization header"] ∧
    (runRequest c4Store (some "BADKEY") none [] none 1
        (ExecutionBehavior.throwLocal "x")).clientErrors.map GatewayError.message
      = ["Invalid authorization header"] ∧
    ¬ (runRequest c4Store (some "BADKEY") none [] none 1
        (ExecutionBehavior.throwLocal "x")).clientErrors.map GatewayError.message
      = ["invalid authorization header"] := by
  refine ⟨rfl, by decide, rfl, by decide⟩

/-- Claim C4 as amended: an absent credential header yields the
authentication fault with message Missing authorization header
(capitalized; an empty header value is treated the same way), a present
nonempty credential absent from the store yields the authentication fault
with message Invalid authorization header, and in both cases zero
resolvers execute and nothing reaches the fault sink. -/
theorem c4_missing_and_invalid_credential (store : CredStore) (k : String)
    (pe : Option String) (ve : List String) (con : Option String) (dc : Nat)
    (ex : ExecutionBehavior)
    (hk : k ≠ "") (hmiss : store (jsTrim k) = Except.ok none) :
    (runRequest store none pe ve con dc ex).clientErrors.map GatewayError.message
      = ["Missing authorization header"] ∧
    (runRequest store none pe ve con dc ex).resolversExecuted = 0 ∧
    (runRequest store none pe ve con dc ex).sinkCaptures = [] ∧
    (runRequest store (some k) pe ve con dc ex).clientErrors.map GatewayError.message
      = ["Invalid authorization header"] ∧
    (runRequest store (some k) pe ve con dc ex).resolversExecuted = 0 ∧
    (runRequest store (some k) pe ve con dc ex).sinkCaptures = [] := by
  rw [runRequest_missing_header store pe ve con dc ex,
      runRequest_invalid_header store k pe ve con dc ex hk hmiss]
  refine ⟨?_, rfl, rfl, ?_, rfl, rfl⟩
  · simp [formatError_authenticationError]
  · simp [formatError_authenticationError]

/-- Witness for C4 as amended at a concrete store and credential. -/
theorem c4_witness :
    (runRequest c4Store none none [] none 1
        (ExecutionBehavior.throwLocal "x")).resolversExecuted = 0 ∧
    (runRequest c4Store (some "BADKEY") none [] none 1
        (ExecutionBehavior.throwLocal "x")).resolversExecuted = 0 := by
  have h := c4_missing_and_invalid_credential c4Store "BADKEY" none [] none 1
      (ExecutionBehavior.throwLocal "x") (by decide) rfl
  exact ⟨h.2.1, h.2.2.2.2.1⟩

/-- Claim C6: a set stage flag suppresses every sink capture regardless of
the error list; with all flags clear the captures are exactly the errors
that are neither backend-tagged nor caller-input-class instances; and a
malformed query returns its parse error to the caller while capturing
nothing to the sink. -/
theorem c6_reporting_suppression_rule
    (f1 f2 f3 : Bool) (errs : List GatewayError)
    (store : CredStore) (k a pm : String) (ve : List String) (con : Option String)
    (dc : Nat) (ex : ExecutionBehavior)
    (hflag : (f1 || f2 || f3) = true)
    (hk : k ≠ "") (ha : store (jsTrim k) = Except.ok (some { affinity := some a }))
    (haff : a ≠ "") :
    didEncounterErrorsCaptures f1 f2 f3 errs = [] ∧
    didEncounterErrorsCaptures false false false errs
      = errs.filter (fun e => !(isBackendTagged e) && !(isCallerInputInstance e)) ∧
    (runRequest store (some k) (some pm) ve con dc ex).sinkCaptures = [] ∧
    (runRequest store (some k) (some pm) ve con dc ex).clientErrors
      = [formatError (syntaxFailureError pm)] ∧
    (runRequest store (some k) (some pm) ve con dc ex).parseFailed = true := by
  rw [runRequest_parse_failure store k a pm ve con dc ex hk ha haff]
  refine ⟨by simp [didEncounterErrorsCaptures, hflag], rfl, rfl, rfl, rfl⟩

/-- Witness for C6 at a concrete flag assignment, error list, store and
malformed request. -/
theorem c6_witness :
    didEncounterErrorsCaptures true false false [wrapLocalException "w"] = [] ∧
    (runRequest c6Store (some "K") (some "Syntax Error") [] none 1
        (ExecutionBehavior.throwLocal "x")).sinkCaptures = [] ∧
    (runRequest c6Store (some "K") (some "Syntax Error") [] none 1
        (ExecutionBehavior.throwLocal "x")).clientErrors
      = [formatError (syntaxFailureError "Syntax Error")] := by
  have h := c6_reporting_suppression_rule true false false [wrapLocalException "w"]
      c6Store "K" "dev-42" "Syntax Error" [] none 1 (ExecutionBehavior.throwLocal "x")
      (by decide) (by decide) rfl (by decide)
  exact ⟨h.1, h.2.2.1, h.2.2.2.1⟩

/-- Counterexample to claim C7: when the credential-store lookup throws,
the captured fault is not authentication-class, it is forwarded to the
fault-tracking sink, and the caller receives the generic Internal Server
Error message in its place - the opposite of each assertion of the claim. -/
theorem c7_counterexample :
    ¬ (buildContext c7Store (some "K")).contextError.map GatewayError.cls
        = some ErrClass.authenticationError ∧
    (runRequest c7Store (some "K") none [] (some "Q") 1
        (ExecutionBehavior.throwLocal "x")).sinkCaptures
      = [lookupFailureError "connect timeout"] ∧
    (runRequest c7Store (some "K") none [] (some "Q") 1
        (ExecutionBehavior.throwLocal "x")).clientErrors.map GatewayError.message
      = ["Internal Server Error"] := by
  refine ⟨by decide, rfl, rfl⟩

/-- Claim C7 as amended: a lookup-unavailable fault is captured as a
non-authentication-class context error, forwarded to the fault-tracking
sink, and replaced for the caller by the generic Internal Server Error
response, with zero resolvers executed. -/
theorem c7_lookup_unavailable_is_internal (store : CredStore) (k em : String)
    (pe : Option String) (ve : List String) (con : Option String) (dc : Nat)
    (ex : ExecutionBehavior)
    (hk : k ≠ "") (herr : store (jsTrim k) = Except.error em) :
    (buildContext store (some k)).contextError = some (lookupFailureError em) ∧
    (lookupFailureError em).cls ≠ ErrClass.authenticationError ∧
    (runRequest store (some k) pe ve con dc ex).sinkCaptures = [lookupFailureError em] ∧
    (runRequest store (some k) pe ve con dc ex).clientErrors.map GatewayError.message
      = ["Internal Server Error"] ∧
    (runRequest store (some k) pe ve con dc ex).resolversExecuted = 0 := by
  rw [runRequest_lookup_error store k em pe ve con dc ex hk herr]
  refine ⟨?_, by simp [lookupFailureError], rfl, ?_, rfl⟩
  · rw [buildContext_lookup_error store k em hk herr]
  · simp [formatError_internalServerErrorValue]

/-- Witness for C7 as amended at a concrete failing store. -/
theorem c7_witness :
    (runRequest c7Store (some "KEY") none [] none 1
        (ExecutionBehavior.throwLocal "x")).sinkCaptures
      = [lookupFailureError "connect timeout"] ∧
    (runRequest c7Store (some "KEY") none [] none 1
        (ExecutionBehavior.throwLocal "x")).clientErrors.map GatewayError.message
      = ["Internal Server Error"] := by
  have h := c7_lookup_unavailable_is_internal c7Store "KEY" "connect timeout" none [] none 1
      (ExecutionBehavior.throwLocal "x") (by decide) rfl
  exact ⟨h.2.2.1, h.2.2.2.1⟩

/-- Counterexample to claim C8: the authentication fault crosses the
formatting stage with its UNAUTHENTICATED extensions code still present,
not extension-free as the claim states. -/
theorem c8_counterexample :
    (formatError (authenticationError "Invalid authorization header")).message
      = "Invalid authorization header" ∧
    (formatError (authenticationError "Invalid authorization header")).extensions
      = some { code := some "UNAUTHENTICATED", exception := none, extra := [] } ∧
    ¬ (formatError (authenticationError "Invalid authorization header")).extensions = none := by
  refine ⟨rfl, rfl, by decide⟩

/-- Claim C8 as amended: every authentication-class or caller-input-class
fault, carrying the Apollo code of its class, crosses the formatting stage
with its message unchanged and its stack and internal-exception fields
stripped, while its remaining extensions are retained rather than
removed. -/
theorem c8_disclosable_fault_keeps_extensions (e : GatewayError) (x : Extensions)
    (hc : disclosableClass e.cls = true)
    (hx : e.extensions = some x)
    (hcode : x.code = some (apolloErrorCode e.cls)) :
    (formatError e).message = e.message ∧
    (formatError e).stack = none ∧
    (formatError e).extensions = some { x with exception := none } := by
  have h1 : x.code ≠ some "APPSYNC_PASSTHROUGH_ERROR" := by
    rw [hcode]
    cases hcls : e.cls
    case otherError => rw [hcls] at hc; exact absurd hc (by decide)
    all_goals decide
  have h2 : x.code ≠ some "INTERNAL_SERVER_ERROR" := by
    rw [hcode]
    cases hcls : e.cls
    case otherError => rw [hcls] at hc; exact absurd hc (by decide)
    all_goals decide
  refine ⟨?_, ?_, ?_⟩ <;> simp [formatError, extensionsCode, hx, h1, h2]

/-- Witness for C8 as amended at a concrete authentication fault. -/
theorem c8_witness :
    (formatError (authenticationError "bad key")).message
      = (authenticationError "bad key").message ∧
    (formatError (authenticationError "bad key")).stack = none ∧
    (formatError (authenticationError "bad key")).extensions
      = some { code := some "UNAUTHENTICATED", exception := none, extra := [] } := by
  have h := c8_disclosable_fault_keeps_extensions (authenticationError "bad key")
      { code := some "UNAUTHENTICATED", exception := some "stacktrace", extra := [] }
      (by decide) (by decide) (by decide)
  exact h

/-- Claim C10: a stored credential whose affinity attribute is the empty
string or absent resolves to no identity, and the request fails with the
authentication fault Invalid authorization header exactly as if the
credential were absent from the store, with zero resolvers executed. -/
theorem c10_falsy_affinity_is_invalid (store emptyStore : CredStore) (k : String)
    (pe : Option String) (ve : List String) (con : Option String) (dc : Nat)
    (ex : ExecutionBehavior)
    (hk : k ≠ "")
    (hrec : store (jsTrim k) = Except.ok (some { affinity := some "" }) ∨
            store (jsTrim k) = Except.ok (some { affinity := none }))
    (hmiss : emptyStore (jsTrim k) = Except.ok none) :
    getAffinityFromApiKey store (jsTrim k) = Except.ok none ∧
    (buildContext store (some k)).contextError
      = some (authenticationError "Invalid authorization header") ∧
    buildContext store (some k) = buildContext emptyStore (some k) ∧
    (runRequest store (some k) pe ve con dc ex).resolversExecuted = 0 ∧
    (runRequest store (some k) pe ve con dc ex).clientErrors.map GatewayError.message
      = ["Invalid authorization header"] := by
  have hga : getAffinityFromApiKey store (jsTrim k) = Except.ok none := by
    rcases hrec with h | h <;> simp [getAffinityFromApiKey, h]
  have hctx : buildContext store (some k)
      = { affinity := none
        , contextError := some (authenticationError "Invalid authorization header") } := by
    simp [buildContext, hk, hga]
  have hctx2 := buildContext_invalid emptyStore k hk hmiss
  have hrun : runRequest store (some k) pe ve con dc ex
      = { clientErrors := [formatError (authenticationError "Invalid authorization header")]
        , sinkCaptures := [], resolversExecuted := 0, parseFailed := false
        , validationFailed := false, unknownOperationName := false } := by
    simp only [runRequest, hctx]
    rfl
  refine ⟨hga, by rw [hctx], by rw [hctx, hctx2], by rw [hrun], ?_⟩
  rw [hrun]
  simp [formatError_authenticationError]

/-- Witness for C10 at a concrete store holding an empty affinity. -/
theorem c10_witness :
    getAffinityFromApiKey c10Store (jsTrim "K") = Except.ok none ∧
    (buildContext c10Store (some "K")).contextError
      = some (authenticationError "Invalid authorization header") ∧
    buildContext c10Store (some "K") = buildContext c10EmptyStore (some "K") := by
  have h := c10_falsy_affinity_is_invalid c10Store c10EmptyStore "K" none [] none 1
      (ExecutionBehavior.throwLocal "x") (by decide) (Or.inl rfl) rfl
  exact ⟨h.1, h.2.1, h.2.2.1⟩

end Gateway
